import Mathlib

set_option maxRecDepth 20000

/-!
Shallow embedding of the IPTV backend (anuragrawat0/iptv-project).

Source files:
  * src/Backend/main/app.py  — FastAPI service: `parse_m3u_index`, `_head_or_get`,
    `_detect_hls_from_headers_and_sample`, `validate_channel_entry`,
    `validate_channels_for_list`, `_load_channels`, `validate_all_channels`,
    `trigger_validate_all`, `validate_status`.
  * src/Backend/app.py — simpler FastAPI service: `parse_m3u`.

Strings are modelled as `List Char` (`Line`).  A text that Python splits with
`splitlines()` is modelled as the resulting list of lines (`List Line`); network
responses are modelled as explicit outcome values; `datetime.utcnow()` values are
modelled as natural numbers (seconds), with `CHANNEL_CACHE_TTL = 1800` seconds
(30 minutes, main/app.py line 23).  Python string truthiness (`x or y`, `if not url`)
is modelled explicitly (`pyOr`, emptiness tests).
-/

abbrev Line := List Char

def str (s : String) : Line := s.data

/-- Python whitespace class used by `str.strip()` and the regex class `\s`
(restricted to the ASCII whitespace characters, which is all that occurs in
manifests). -/
def isPySpace (c : Char) : Bool :=
  c == ' ' || c == '\t' || c == '\n' || c == '\r' || c == '\x0b' || c == '\x0c'

/-- Python `str.strip()`. -/
def pyStrip (l : Line) : Line :=
  ((l.dropWhile isPySpace).reverse.dropWhile isPySpace).reverse

/-- Python `str.lower()` (ASCII). -/
def pyLower (l : Line) : Line := l.map Char.toLower

/-- Python `needle in hay` substring test. -/
def containsSub (needle : Line) : Line → Bool
  | [] => needle.isEmpty
  | c :: rest => needle.isPrefixOf (c :: rest) || containsSub needle rest

/-- Python `a or b` on optional strings: `None` and `""` are falsy. -/
def pyOr (a b : Option Line) : Option Line :=
  match a with
  | some v => if v = [] then b else some v
  | none => b

/-- Python `a or b` where `b` is a plain string. -/
def pyOrStr (a : Option Line) (b : Line) : Line :=
  match a with
  | some v => if v = [] then b else v
  | none => b

/-- Python `dict` built by repeated assignment: later occurrences of a key win;
lookup by exact key equality (`dict.get`). -/
def dictGet (k : Line) (d : List (Line × Line)) : Option Line :=
  (d.reverse.find? (fun p => p.1 == k)).map (fun p => p.2)

/-- Character class `[\w-]` of the attribute regexes (ASCII `\w` plus hyphen). -/
def isWordChar (c : Char) : Bool := c.isAlphanum || c == '_' || c == '-'

/-- Scanner state for the attribute regex scan: either accumulating the
(reversed) run of `[\w-]` characters seen immediately before the current
position, or inside a quoted value with the key already fixed. -/
inductive AMode where
  | key (run : Line)
  | val (k : Line) (acc : Line)

/-- `re.finditer(r'([\w-]+?)="([^"]*)"', s)` from src/Backend/main/app.py line 295
(`ATTR_RE`).  Leftmost-match semantics make the captured key the maximal run of
`[\w-]` characters ending right before `="`; the value runs to the next `"`.
If a candidate value is never closed by a quote, no further match is possible
(every later match also needs a closing quote), so the scan stops. -/
def attrScan : AMode → Line → List (Line × Line)
  | _, [] => []
  | .key run, '=' :: '"' :: rest =>
    if run = [] then attrScan (.key []) rest
    else attrScan (.val run.reverse []) rest
  | .key run, c :: rest =>
    if isWordChar c then attrScan (.key (c :: run)) rest else attrScan (.key []) rest
  | .val k acc, c :: rest =>
    if c = '"' then (k, acc.reverse) :: attrScan (.key []) rest
    else attrScan (.val k (c :: acc)) rest

/-- `re.findall(r'(\w[\w-]*)="(.*?)"', s)` from src/Backend/app.py line 16
(`ATTR_RE`).  Same scan, except the key must start with a `\w` character, so
leading hyphens of the run are not part of the key (and a run of only hyphens
gives no match). -/
def attrScan2 : AMode → Line → List (Line × Line)
  | _, [] => []
  | .key run, '=' :: '"' :: rest =>
    let k := run.reverse.dropWhile (fun c => c == '-')
    if k = [] then attrScan2 (.key []) rest
    else attrScan2 (.val k []) rest
  | .key run, c :: rest =>
    if isWordChar c then attrScan2 (.key (c :: run)) rest else attrScan2 (.key []) rest
  | .val k acc, c :: rest =>
    if c = '"' then (k, acc.reverse) :: attrScan2 (.key []) rest
    else attrScan2 (.val k (c :: acc)) rest

/-- Index of the last `,` in a line, if any. -/
def lastCommaIdx (r : Line) : Option Nat :=
  ((r.enum.filter (fun p => p.2 == ',')).map (fun p => p.1)).getLast?

/-- Tail of `EXTINF_RE = re.compile(r'#EXTINF:-?\d+(?:\s+(.+))?,(.*)$')`
(src/Backend/main/app.py line 294) after the digits: the optional group
`(?:\s+(.+))?` followed by `,` and the rest.  Backtracking semantics:
`\s+` is greedy (prefers the maximal whitespace run `W`), then `(.+)` is greedy,
so the matched comma is the last comma of the remainder; if the only comma sits
immediately after the whitespace run, `\s+` gives back one character (needs
`W ≥ 2`); if the remainder has no leading whitespace the optional group is
skipped and the first character must be the comma itself. -/
def extinfTail (r : Line) : Option (Option Line × Line) :=
  let W := (r.takeWhile isPySpace).length
  if W = 0 then
    match r with
    | ',' :: rest => some (none, rest)
    | _ => none
  else
    match lastCommaIdx r with
    | some L =>
      if W + 1 ≤ L then some (some ((r.drop W).take (L - W)), r.drop (L + 1))
      else if 2 ≤ W ∧ L = W then some (some ((r.drop (W - 1)).take 1), r.drop (L + 1))
      else none
    | none => none

/-- `EXTINF_RE.match(ln)` followed by the attribute extraction of
src/Backend/main/app.py lines 313-322: returns the attribute pairs found in
group 1 and `some (group 2).strip()` as the display name; when the regex does
not match, `attrs = {}` and `display_name = None`. -/
def extinfParse (ln : Line) : List (Line × Line) × Option Line :=
  if (str "#EXTINF:").isPrefixOf ln then
    let r0 := ln.drop 8
    let r1 := match r0 with
      | '-' :: t => t
      | _ => r0
    if r1.takeWhile Char.isDigit = [] then ([], none)
    else
      match extinfTail (r1.dropWhile Char.isDigit) with
      | some (g1, g2) => (attrScan (.key []) (g1.getD []), some (pyStrip g2))
      | none => ([], none)
  else ([], none)

/-- Channel dict built by `parse_m3u_index` (src/Backend/main/app.py lines 331-341). -/
structure Item where
  id : Option Line
  name : Option Line
  tvg_name : Option Line
  tvg_id : Option Line
  tvg_logo : Option Line
  group : Option Line
  language : Option Line
  country : Option Line
  url : Line
deriving DecidableEq

/-- The item dict literal of src/Backend/main/app.py lines 331-341, built from the
attributes and display name of the current `#EXTINF` line and the URL line. -/
def mkItem (p : List (Line × Line) × Option Line) (url : Line) : Item :=
  let attrs := p.1
  let dn := p.2
  let g : Line → Option Line := fun k => dictGet k attrs
  { id := pyOr (g (str "tvg-id")) (pyOr (g (str "id")) none)
  , name := pyOr (g (str "tvg-name")) (pyOr dn none)
  , tvg_name := pyOr (g (str "tvg-name")) (pyOr dn none)
  , tvg_id := pyOr (g (str "tvg-id")) none
  , tvg_logo := pyOr (g (str "tvg-logo")) none
  , group := pyOr (g (str "group-title")) (pyOr (g (str "group")) none)
  , language := pyOr (g (str "tvg-language")) (pyOr (g (str "language")) none)
  , country := pyOr (g (str "tvg-country")) (pyOr (g (str "country")) none)
  , url := pyStrip url }

/-- The `while` loop of `parse_m3u_index` (src/Backend/main/app.py lines 310-347)
as a two-mode scan over the (already stripped) lines.  `none` mode is the outer
loop looking for a `#EXTINF`-prefixed line; `some p` mode is the inner loop
(lines 326-328) searching for the next line that is neither empty nor
`#`-prefixed, holding the parsed metadata `p` of the `#EXTINF` line that started
the search.  When a URL line is found the item is appended and the outer loop
resumes after the URL line (`i = j; i += 1`); when the inner search hits
end-of-input the metadata is dropped (`pass`) and the outer loop continues over
lines that are all blank or `#`-prefixed, producing nothing. -/
def parse_m3u_index_go : Option (List (Line × Line) × Option Line) → List Line → List Item
  | _, [] => []
  | none, ln :: rest =>
    if (str "#EXTINF").isPrefixOf ln then parse_m3u_index_go (some (extinfParse ln)) rest
    else parse_m3u_index_go none rest
  | some p, ln :: rest =>
    if ln = [] ∨ (str "#").isPrefixOf ln = true then parse_m3u_index_go (some p) rest
    else mkItem p ln :: parse_m3u_index_go none rest

/-- `parse_m3u_index(text)` (src/Backend/main/app.py lines 298-348), taking the
result of `text.splitlines()` as input; line 305 strips every line first. -/
def parse_m3u_index (lines : List Line) : List Item :=
  parse_m3u_index_go none (lines.map pyStrip)

/-- Channel dict yielded by `parse_m3u` (src/Backend/app.py lines 40-47). -/
structure Chan where
  name : Line
  logo : Option Line
  url : Line
  tvg_language : Option Line
  tvg_country : Option Line
  group_title : Option Line
deriving DecidableEq

/-- Parser state of `parse_m3u` (src/Backend/app.py lines 26-27): the current
attribute dict and the pending `name`/`logo`. -/
structure MState where
  attrs : List (Line × Line)
  name : Option Line
  logo : Option Line
deriving DecidableEq

def m3uInit : MState := ⟨[], none, none⟩

/-- Python `ln.split(",", 1)[1]` guarded by `"," in ln`. -/
def afterFirstComma? : Line → Option Line
  | [] => none
  | ',' :: rest => some rest
  | _ :: rest => afterFirstComma? rest

/-- Attribute dict of an `#EXTINF` line in `parse_m3u`
(src/Backend/app.py line 31): keys lowercased, later duplicates win. -/
def m3uAttrs (ln : Line) : List (Line × Line) :=
  (attrScan2 (.key []) ln).map (fun p => (pyLower p.1, p.2))

/-- Processing of one `#EXTINF:` line in `parse_m3u`
(src/Backend/app.py lines 30-37). -/
def m3uStep (ln : Line) : MState :=
  let attrs := m3uAttrs ln
  let name : Option Line :=
    match afterFirstComma? ln with
    | some t => some (pyStrip t)
    | none =>
      pyOr (dictGet (str "tvg-name") attrs)
        (pyOr (dictGet (str "tvg-id") attrs) (some (str "Unknown")))
  let logo := dictGet (str "tvg-logo") attrs
  ⟨attrs, name, logo⟩

/-- The loop of `parse_m3u` (src/Backend/app.py lines 29-49): `#EXTINF:` lines
replace the whole state; `http`-prefixed lines yield a channel and reset the
state; all other lines are ignored. -/
def parse_m3u_go (st : MState) : List Line → List Chan
  | [] => []
  | ln :: rest =>
    if (str "#EXTINF:").isPrefixOf ln then parse_m3u_go (m3uStep ln) rest
    else if (str "http").isPrefixOf ln then
      { name := pyOrStr st.name (str "Unknown")
      , logo := st.logo
      , url := ln
      , tvg_language := dictGet (str "tvg-language") st.attrs
      , tvg_country := dictGet (str "tvg-country") st.attrs
      , group_title := dictGet (str "group-title") st.attrs } :: parse_m3u_go m3uInit rest
    else parse_m3u_go st rest

/-- `parse_m3u(text)` (src/Backend/app.py lines 20-49), taking the result of
`text.splitlines()` as input; line 25 strips every line and keeps only the
nonempty ones. -/
def parse_m3u (lines : List Line) : List Chan :=
  parse_m3u_go m3uInit ((lines.map pyStrip).filter (fun l => l ≠ []))

example :
    parse_m3u_index
      [str "#EXTINF:-1 tvg-id=\"a\" tvg-name=\"N\" tvg-logo=\"l\" group-title=\"G\",Chan",
       str "http://x"] =
    [⟨some (str "a"), some (str "N"), some (str "N"), some (str "a"), some (str "l"),
      some (str "G"), none, none, str "http://x"⟩] := by decide

example :
    parse_m3u [str "#EXTINF:-1 tvg-logo=\"l\" group-title=\"G\",Chan", str "http://x"] =
    [⟨str "Chan", some (str "l"), str "http://x", none, none, some (str "G")⟩] := by decide

/-! ## Probe classifier: `_detect_hls_from_headers_and_sample`
(src/Backend/main/app.py lines 396-438).  The body sample (bytes in Python) is
modelled as a `Line`; the byte-level mp4 check and the decoded-text marker check
operate on the same character list (faithful for the ASCII/NUL data involved). -/

/-- `Python "a\nb".splitlines()` restricted to `\n` separators: like
`splitOn '\n'` but without a trailing empty piece for a trailing newline, and
empty input gives no lines. -/
def splitlinesL (l : Line) : List Line :=
  if l = [] then []
  else
    let ps := l.splitOn '\n'
    match ps.getLast? with
    | some [] => ps.dropLast
    | _ => ps

/-- `re.search(r'CODECS="([^"]+)"', line)` (src/Backend/main/app.py line 421):
leftmost occurrence of `CODECS="` followed by at least one non-quote character
and a closing quote; returns the captured group. -/
def findCodecs : Line → Option Line
  | [] => none
  | c :: rest =>
    if (str "CODECS=\"").isPrefixOf (c :: rest) then
      let after := (c :: rest).drop 8
      let v := after.takeWhile (fun ch => !(ch == '"'))
      if v = [] then findCodecs rest
      else if (after.drop v.length).head? = some '"' then some v
      else findCodecs rest
    else findCodecs rest

/-- The codec list extraction of src/Backend/main/app.py lines 418-423: for every
sample line starting with `#EXT-X-STREAM-INF`, the captured CODECS value is
split on `,` and each entry stripped and lowercased; the per-line lists are
concatenated in order (`codecs_found.extend`). -/
def codecsFound (s : Line) : List Line :=
  (splitlinesL s).foldr
    (fun line acc =>
      if (str "#EXT-X-STREAM-INF").isPrefixOf line then
        (match findCodecs line with
         | some v => (v.splitOn ',').map (fun c => pyLower (pyStrip c))
         | none => []) ++ acc
      else acc) []

/-- The substring test of src/Backend/main/app.py line 426: a codec entry counts
as known-safe when it contains `avc`, `h264`, `mp4a` or `aac`. -/
def isOkCodec (c : Line) : Bool :=
  containsSub (str "avc") c || containsSub (str "h264") c ||
  containsSub (str "mp4a") c || containsSub (str "aac") c

/-- Python `",".join(l)`. -/
def joinComma (l : List Line) : Line := List.intercalate (str ",") l

/-- `ct = (headers.get("content-type") or "").lower()` (line 405). -/
def ctOf (headers : List (Line × Line)) : Line :=
  pyLower (pyOrStr (dictGet (str "content-type") headers) [])

/-- The content-type test on line 406: any of the `mpegurl` substring checks or
an `m3u8` suffix. -/
def isHlsCt (ct : Line) : Bool :=
  containsSub (str "mpegurl") ct || containsSub (str "vnd.apple.mpegurl") ct ||
  containsSub (str "application/vnd.apple.mpegurl") ct || (str "m3u8").isSuffixOf ct

/-- The playlist marker test on line 415. -/
def hasPlaylistMarkers (s : Line) : Bool :=
  containsSub (str "#EXTM3U") s || containsSub (str "#EXTINF") s ||
  containsSub (str "#EXT-X-STREAM-INF") s

/-- Lines 424-431: codec-based classification of a sample that has playlist
markers. -/
def classifySample (s : Line) : Bool × Option Line :=
  let codecs := codecsFound s
  if codecs = [] then (true, some (str "playlist markers present"))
  else if codecs.filter isOkCodec = [] then
    (false, some (str "playlist with unrecognized CODECS " ++ joinComma codecs))
  else (true, some (str "playlist with CODECS " ++ joinComma codecs))

/-- `sample[:12].startswith(b'\x00\x00\x00') and b'ftyp' in sample[:64]`
(line 433). -/
def isMp4Sig (s : Line) : Bool :=
  ([ '\x00', '\x00', '\x00' ] : Line).isPrefixOf (s.take 12) &&
  containsSub (str "ftyp") (s.take 64)

/-- Lines 435-438: the fallback when neither the content-type nor the sample
decided the answer. -/
def ctVideoFallback (headers : List (Line × Line)) : Bool × Option Line :=
  let ct := ctOf headers
  if containsSub (str "video") ct then
    (false, some (str "content-type video but not m3u8 (" ++ ct ++ str ")"))
  else (false, none)

/-- `_detect_hls_from_headers_and_sample(headers, sample)`
(src/Backend/main/app.py lines 396-438).  `sample = some []` models the falsy
empty byte string (`if sample:` fails), which falls through like `None`. -/
def detect_hls_from_headers_and_sample (headers : List (Line × Line))
    (sample : Option Line) : Bool × Option Line :=
  let ct := ctOf headers
  if isHlsCt ct then (true, some (str "content-type indicates mpegurl (" ++ ct ++ str ")"))
  else
    match sample with
    | some s =>
      if s = [] then ctVideoFallback headers
      else if hasPlaylistMarkers s then classifySample s
      else if isMp4Sig s then (false, some (str "sample indicates fMP4/MP4 fragment (no playlist)"))
      else ctVideoFallback headers
    | none => ctVideoFallback headers

/-! ## Channel prober: `_head_or_get` and `validate_channel_entry`
(src/Backend/main/app.py lines 376-473).  The two network attempts (HEAD, GET)
are modelled as explicit outcomes: either a response (status, headers, body) or
a raised transport exception carrying its message.  `_head_or_get` itself
catches every exception of both attempts, so it is a total function of the two
outcomes; consequently the `except` branch of `validate_channel_entry`
(lines 456-458, reachable only if `_head_or_get` itself raised) never fires in
this model. -/

inductive Attempt where
  | ok (status : Nat) (headers : List (Line × Line)) (content : Line)
  | exn (msg : Line)
deriving DecidableEq

/-- The GET fallback of `_head_or_get` (lines 389-393): on success the body is
truncated to 4096 bytes and an empty body becomes `None`; on a transport
exception the function returns `(0, {}, None)`. -/
def get_fallback (getr : Attempt) : Nat × List (Line × Line) × Option Line :=
  match getr with
  | .ok st h c => (st, h, if c = [] then none else some (c.take 4096))
  | .exn _ => (0, [], none)

/-- `_head_or_get(url, client)` (src/Backend/main/app.py lines 376-393): HEAD
first; only a HEAD status of exactly 200 short-circuits (with no sample),
anything else — including a HEAD exception — falls back to the GET attempt. -/
def head_or_get (head getr : Attempt) : Nat × List (Line × Line) × Option Line :=
  match head with
  | .ok st h _ => if st = 200 then (st, h, none) else get_fallback getr
  | .exn _ => get_fallback getr

/-- The validation dict of `validate_channel_entry`
(src/Backend/main/app.py line 448).  `last_checked` (an ISO timestamp string in
Python) is modelled as an optional natural number. -/
structure VResult where
  working : Bool
  hls_compatible : Bool
  last_checked : Option Nat
  check_error : Option Line
deriving DecidableEq

/-- `validate_channel_entry(entry, client, sem)`
(src/Backend/main/app.py lines 440-473), as a function of the entry's URL, the
two network attempt outcomes, and the probe time `now`.  A missing or empty URL
is rejected before any network access (`if not url`, line 449); otherwise
`last_checked` is set, a zero or `>= 400` status records `HTTP status {status}`
as the error, and otherwise `working = (200 <= status < 400)` and the classifier
verdict fills `hls_compatible` with a truthy reason becoming `check_error`. -/
def validate_channel_entry (url : Option Line) (head getr : Attempt) (now : Nat) : VResult :=
  match url with
  | none => ⟨false, false, none, some (str "no url")⟩
  | some u =>
    if u = [] then ⟨false, false, none, some (str "no url")⟩
    else
      let sr := head_or_get head getr
      let status := sr.1
      if status = 0 ∨ 400 ≤ status then
        ⟨false, false, some now, some (str "HTTP status " ++ (toString status).data)⟩
      else
        let dh := detect_hls_from_headers_and_sample sr.2.1 sr.2.2
        ⟨decide (200 ≤ status ∧ status < 400), dh.1, some now,
         match dh.2 with
         | some r => if r = [] then none else some r
         | none => none⟩

example :
    validate_channel_entry (some (str "http://u")) (.ok 200 [(str "content-type", str "application/vnd.apple.mpegurl")] []) (.exn (str "x")) 7 =
    ⟨true, true, some 7, some (str "content-type indicates mpegurl (application/vnd.apple.mpegurl)")⟩ := by decide

example :
    validate_channel_entry (some (str "http://u")) (.exn (str "boom")) (.exn (str "boom")) 7 =
    ⟨false, false, some 7, some (str "HTTP status 0")⟩ := by decide

/-! ## Validation cache and request-scoped page validation
(`_channels_cache["validated_map"]` and `validate_channels_for_list`,
src/Backend/main/app.py lines 286-291 and 476-519).

The validated map is a Python dict whose keys are the values of
`entry.get("url")`; in `validate_all_channels` the key can be `None`
(line 585), so keys are modelled as `Option Line`.  The map is modelled as an
association list with unique keys: `vmapSet` replaces in place or appends, so
its length models `len(dict)`. -/

def CHANNEL_CACHE_TTL : Nat := 1800

abbrev VMap := List (Option Line × VResult)

def vmapGet (k : Option Line) (m : VMap) : Option VResult :=
  (m.find? (fun p => p.1 == k)).map (fun p => p.2)

def vmapSet (k : Option Line) (v : VResult) (m : VMap) : VMap :=
  if (m.find? (fun p => p.1 == k)).isSome then
    m.map (fun p => if p.1 == k then (p.1, v) else p)
  else m ++ [(k, v)]

/-- The skip test of src/Backend/main/app.py lines 489-497: an entry is skipped
when a previous result for its URL exists and its `last_checked` parses and is
younger than the TTL (an unparsable/`None` timestamp falls through the
`except: pass` and the entry is probed). -/
def freshInMap (m : VMap) (url : Line) (now : Nat) : Bool :=
  match vmapGet (some url) m with
  | some prev =>
    match prev.last_checked with
    | some t => now - t < CHANNEL_CACHE_TTL
    | none => false
  | none => false

/-- The first pass of `validate_channels_for_list` (lines 483-498): which
entries get a probe task scheduled.  `if not url: continue` drops missing and
empty URLs. -/
def vcflScheduled (entries : List (Option Line)) (m : VMap) (now : Nat) : List (Option Line) :=
  entries.filter (fun e =>
    match e with
    | some u => if u = [] then false else !(freshInMap m u now)
    | none => false)

/-- The error-to-result conversion of lines 512-513 and 587. -/
def exnResult (now : Nat) (msg : Line) : VResult :=
  ⟨false, false, some now, some msg⟩

/-- The second pass of `validate_channels_for_list` (lines 501-519): walk ALL
entries that have a URL and pop the next gathered result for each, writing it
into the map under that entry's URL; when the results run out the remaining
entries are skipped (`else: continue`).  Note that this pass does not re-check
which entries were actually scheduled. -/
def vcflAttach (now : Nat) : List (Option Line) → List (Except Line VResult) → VMap → VMap
  | [], _, m => m
  | e :: es, results, m =>
    match e with
    | none => vcflAttach now es results m
    | some u =>
      if u = [] then vcflAttach now es results m
      else
        match results with
        | [] => vcflAttach now es [] m
        | r :: rs =>
          let res := match r with
            | .error msg => exnResult now msg
            | .ok v => v
          vcflAttach now es rs (vmapSet (some u) res m)

/-- `validate_channels_for_list(entries)` (src/Backend/main/app.py
lines 476-519) as a function of the entries' URLs, the current validated map,
the current time, and a per-entry probe outcome oracle (`asyncio.gather` with
`return_exceptions=True` returns the probe results — or raised exceptions — of
the scheduled entries in scheduling order). -/
def validate_channels_for_list (entries : List (Option Line)) (m : VMap) (now : Nat)
    (probe : Option Line → Except Line VResult) : VMap :=
  let results := (vcflScheduled entries m now).map probe
  if results.isEmpty then m else vcflAttach now entries results m

/-! ## Channel cache: `_load_channels` (src/Backend/main/app.py lines 358-372). -/

/-- The channel cache `_channels_cache` slots `items`/`last_loaded`
(lines 286-291). -/
structure ChCache where
  items : Option (List Item)
  last_loaded : Option Nat
deriving DecidableEq

/-- The fetch-and-parse branch of `_load_channels` (lines 367-372): fetch the
index text, parse it, replace `items` and `last_loaded`.  The returned `Bool`
records that a network fetch was performed. -/
def loadFetch (now : Nat) (fetched : List Line) : List Item × ChCache × Bool :=
  let parsed := parse_m3u_index fetched
  (parsed, ⟨some parsed, some now⟩, true)

/-- `_load_channels(force)` (src/Backend/main/app.py lines 358-372): the cached
items are returned — without fetching — only when `items` is truthy (a
NON-EMPTY list), `last_loaded` is set, `force` is false and the age is below
`CHANNEL_CACHE_TTL`; otherwise it refetches. -/
def load_channels (st : ChCache) (force : Bool) (now : Nat) (fetched : List Line) :
    List Item × ChCache × Bool :=
  match st.items, st.last_loaded with
  | some its, some t =>
    if its ≠ [] ∧ force = false ∧ now - t < CHANNEL_CACHE_TTL then (its, st, false)
    else loadFetch now fetched
  | _, _ => loadFetch now fetched

/-! ## Validation job: `_validation_job`, `validate_all_channels`,
`trigger_validate_all`, `validate_status`
(src/Backend/main/app.py lines 525-624). -/

/-- `_validation_job` (lines 525-534).  `progress` (a Python float) is modelled
as a rational. -/
structure Job where
  running : Bool
  started_at : Option Nat
  finished_at : Option Nat
  total : Nat
  validated : Nat
  errors : Nat
  progress : ℚ
deriving DecidableEq

/-- The body of the chunked result loop of `validate_all_channels`
(lines 582-593) for one gathered result: the result is keyed by the
corresponding slice entry's URL (`ent.get("url") if ent else None`), the map
entry is overwritten, the counters update, and `progress` is recomputed as
`len(validated_map) / total * 100` using the size of the WHOLE map. -/
def bulkStep (now : Nat) (job : Job) (m : VMap) (ent : Option Item)
    (res : Except Line VResult) : Job × VMap :=
  let url : Option Line := ent.map (fun it => it.url)
  match res with
  | .error msg =>
    let m' := vmapSet url (exnResult now msg) m
    let job' := { job with errors := job.errors + 1 }
    ({ job' with progress := ((m'.length : ℚ) / (job'.total : ℚ)) * 100 }, m')
  | .ok v =>
    let m' := vmapSet url v m
    let job' := if v.working then { job with validated := job.validated + 1 } else job
    ({ job' with progress := ((m'.length : ℚ) / (job'.total : ℚ)) * 100 }, m')

/-- The full result loop of lines 574-594.  The chunking (`chunk_size = 20`)
only batches the same per-result processing, pairing the k-th gathered result
with `items[k]` (`slice_items[i]`), so it is modelled as a single walk over the
results, consuming `items` in step and using `None` once `items` runs out. -/
def bulkAttach (now : Nat) : Job → VMap → List (Option Item) → List (Except Line VResult) →
    Job × VMap
  | job, m, _, [] => (job, m)
  | job, m, ents, r :: rs =>
    let ent := ents.head?.getD none
    let p := bulkStep now job m ent r
    bulkAttach now p.1 p.2 ents.tail rs

/-- `validate_all_channels(force_refresh)` (src/Backend/main/app.py
lines 537-598): single-flight guard, counter reset, channel (re)load, probe of
every item whose URL is truthy (`tasks` are built only from those, line 567-571,
while `slice_items` slices ALL items), and the `finally` block clearing
`running` and stamping `finished_at`. -/
def validate_all_channels (job : Job) (m : VMap) (chc : ChCache) (force_refresh : Bool)
    (now : Nat) (fetched : List Line) (probe : Item → Except Line VResult) :
    Job × VMap × ChCache :=
  if job.running then (job, m, chc)
  else
    let job1 : Job := ⟨true, some now, none, 0, 0, 0, 0⟩
    let loaded := load_channels chc force_refresh now fetched
    let items := loaded.1
    let chc' := loaded.2.1
    let tasks := items.filter (fun it => it.url ≠ [])
    let job2 := { job1 with total := tasks.length }
    if tasks.length = 0 then
      ({ job2 with running := false, finished_at := some now }, m, chc')
    else
      let results := tasks.map probe
      let p := bulkAttach now job2 m (items.map some) results
      ({ p.1 with running := false, finished_at := some now }, p.2, chc')

/-- `trigger_validate_all` (src/Backend/main/app.py lines 602-608): a 409
conflict if a job is running (before any task is created), otherwise a start
acknowledgment; the handler itself never mutates the job state, which is
returned alongside to express this. -/
def trigger_validate_all (job : Job) : Except (Nat × Job) (Bool × Job) :=
  if job.running then .error (409, job) else .ok (true, job)

/-- `validate_status` (src/Backend/main/app.py lines 612-624): a snapshot of the
job state plus `len(validated_map)`; `progress_percent` is `round(progress, 2)`,
which is the identity on the integral values used in the theorems below. -/
def validate_status (job : Job) (m : VMap) : Bool × ℚ × Nat × Nat :=
  (job.running, job.progress, job.total, m.length)

example :
    (validate_all_channels ⟨false, none, none, 0, 0, 0, 0⟩
      [(some (str "http://old"), ⟨true, true, some 0, none⟩)]
      ⟨some [mkItem ([], some (str "B")) (str "http://b")], some 10⟩
      false 20 [] (fun _ => .ok ⟨true, true, some 20, none⟩)).1.progress = 200 := by
  have h :
      (validate_all_channels ⟨false, none, none, 0, 0, 0, 0⟩
        [(some (str "http://old"), ⟨true, true, some 0, none⟩)]
        ⟨some [mkItem ([], some (str "B")) (str "http://b")], some 10⟩
        false 20 [] (fun _ => .ok ⟨true, true, some 20, none⟩)).1.progress =
      ((2 : ℚ) / (1 : ℚ)) * 100 := rfl
  rw [h]; norm_num

/-! ## Helper predicates and lemmas used by the theorems below. -/

/-- Whether a network attempt raised a transport exception. -/
def isExn : Attempt → Bool
  | .exn _ => true
  | .ok _ _ _ => false

lemma pyOr_eq_of_falsy {a : Option Line} (h : pyOr a none = none) (b : Option Line) :
    pyOr a b = b := by
  cases a with
  | none => rfl
  | some v =>
    by_cases hv : v = []
    · simp [pyOr, hv]
    · simp [pyOr, hv] at h

/-- `find?` by key sees the same keys after mapping a fst-preserving function. -/
lemma find?_isSome_map_fst (f : Option Line × VResult → Option Line × VResult)
    (hf : ∀ p, (f p).1 = p.1) (k : Option Line) :
    ∀ m : VMap, (List.find? (fun p => p.1 == k) (m.map f)).isSome =
      (List.find? (fun p => p.1 == k) m).isSome := by
  intro m
  induction m with
  | nil => rfl
  | cons p ps ih =>
    simp only [List.map_cons, List.find?_cons, hf p]
    cases hpk : (p.1 == k) with
    | true =>
      simp only [hpk]
      rfl
    | false =>
      simp only [hpk]
      exact ih

lemma isSome_map_snd (o : Option (Option Line × VResult)) :
    (o.map (fun p => p.2)).isSome = o.isSome := by
  cases o <;> rfl

/-- `vmapGet` sees the same keys after mapping a fst-preserving function. -/
lemma vmapGet_isSome_map_snd (m : VMap) (k k' : Option Line) (v : VResult)
    (h : (vmapGet k m).isSome = true) :
    (vmapGet k (m.map (fun p => if p.1 == k' then (p.1, v) else p))).isSome = true := by
  have hf : ∀ p : Option Line × VResult, (if p.1 == k' then (p.1, v) else p).1 = p.1 := by
    intro p; by_cases hx : p.1 == k' <;> simp [hx]
  simp only [vmapGet, isSome_map_snd] at h ⊢
  rw [find?_isSome_map_fst _ hf]
  exact h

lemma vmapGet_isSome_append (m l : VMap) (k : Option Line)
    (h : (vmapGet k m).isSome = true) :
    (vmapGet k (m ++ l)).isSome = true := by
  induction m with
  | nil => simp [vmapGet] at h
  | cons p ps ih =>
    by_cases hk : p.1 == k
    · simp [vmapGet, List.find?, hk]
    · simp only [vmapGet, List.find?, hk, List.cons_append] at h ⊢
      exact ih h

/-- `vmapSet` never removes a key. -/
lemma vmapGet_isSome_set (m : VMap) (k k' : Option Line) (v : VResult)
    (h : (vmapGet k m).isSome = true) :
    (vmapGet k (vmapSet k' v m)).isSome = true := by
  unfold vmapSet
  by_cases hf : (m.find? (fun p => p.1 == k')).isSome
  · simpa [hf] using vmapGet_isSome_map_snd m k k' v h
  · simpa [hf] using vmapGet_isSome_append m [(k', v)] k h

lemma bulkStep_mono (now : Nat) (job : Job) (m : VMap) (ent : Option Item)
    (res : Except Line VResult) (k : Option Line)
    (h : (vmapGet k m).isSome = true) :
    (vmapGet k (bulkStep now job m ent res).2).isSome = true := by
  cases res with
  | error msg => exact vmapGet_isSome_set m k _ _ h
  | ok v => exact vmapGet_isSome_set m k _ _ h

lemma bulkAttach_mono (now : Nat) :
    ∀ (rs : List (Except Line VResult)) (job : Job) (m : VMap) (ents : List (Option Item))
      (k : Option Line), (vmapGet k m).isSome = true →
      (vmapGet k (bulkAttach now job m ents rs).2).isSome = true := by
  intro rs
  induction rs with
  | nil => intro job m ents k h; exact h
  | cons r rest ih =>
    intro job m ents k h
    exact ih _ _ _ _ (bulkStep_mono now job m _ r k h)

lemma vcflAttach_mono (now : Nat) :
    ∀ (entries : List (Option Line)) (rs : List (Except Line VResult)) (m : VMap)
      (k : Option Line), (vmapGet k m).isSome = true →
      (vmapGet k (vcflAttach now entries rs m)).isSome = true := by
  intro entries
  induction entries with
  | nil => intro rs m k h; exact h
  | cons e es ih =>
    intro rs m k h
    cases e with
    | none => exact ih rs m k h
    | some u =>
      by_cases hu : u = []
      · simpa [vcflAttach, hu] using ih rs m k h
      · cases rs with
        | nil => simpa [vcflAttach, hu] using ih [] m k h
        | cons r rest =>
          simp only [vcflAttach, hu, if_neg hu]
          exact ih rest _ k (vmapGet_isSome_set m k _ _ h)

/-- Claim C3 (code_bug): `validate_channels_for_list` attaches gathered results
positionally to ALL entries that have a URL, without skipping the entries whose
probes were never scheduled because their cached result was fresh
(src/Backend/main/app.py lines 501-519, contradicting the comments
"attach results to map in same order by url" and "we may have skipped some, so
check" on lines 502 and 507).  Failing input: two entries, `http://a` with a
fresh cached result (checked at 95, now = 100, TTL 1800) and `http://b` never
validated.  Only `http://b` is probed, yet its result (an HTTP 404 failure) is
stored under `http://a` — overwriting the fresh entry — and `http://b` stays
absent from the map. -/
theorem c3_bug_eval :
    validate_channels_for_list [some (str "http://a"), some (str "http://b")]
        [(some (str "http://a"), ⟨true, true, some 95, none⟩)] 100
        (fun _ => .ok ⟨false, false, some 100, some (str "HTTP status 404")⟩) =
      [(some (str "http://a"), ⟨false, false, some 100, some (str "HTTP status 404")⟩)] ∧
    vmapGet (some (str "http://b"))
      (validate_channels_for_list [some (str "http://a"), some (str "http://b")]
        [(some (str "http://a"), ⟨true, true, some 95, none⟩)] 100
        (fun _ => .ok ⟨false, false, some 100, some (str "HTTP status 404")⟩)) = none := by
  decide

/-- Claim C4 counterexample: a previous snapshot that is the EMPTY channel list
is refetched even when fresh and `force=false`, because `_load_channels` tests
the truthiness of `_channels_cache["items"]` (src/Backend/main/app.py line 363)
and an empty list is falsy: the fetch is performed (third component `true`). -/
theorem c4_counterexample :
    (load_channels ⟨some [], some 0⟩ false 10 []).2.2 = true := by decide

/-- Claim C4 (corrected): with a previous NON-EMPTY snapshot younger than the
freshness window and `force=false`, `_load_channels` returns the cached list
and state unchanged and performs no fetch; with `force=true` it always
refetches, reparses and replaces both the snapshot and its timestamp. -/
theorem c4_amended :
    (∀ (st : ChCache) (force : Bool) (now : Nat) (fetched : List Line)
       (its : List Item) (t : Nat), st.items = some its → its ≠ [] →
       st.last_loaded = some t → force = false → now - t < CHANNEL_CACHE_TTL →
       load_channels st force now fetched = (its, st, false)) ∧
    (∀ (st : ChCache) (now : Nat) (fetched : List Line),
       load_channels st true now fetched =
         (parse_m3u_index fetched,
          (⟨some (parse_m3u_index fetched), some now⟩ : ChCache), true)) := by
  constructor
  · intro st force now fetched its t hi hne hl hf ht
    obtain ⟨items, last⟩ := st
    cases hi; cases hl
    simp [load_channels, hne, hf, ht]
  · intro st now fetched
    obtain ⟨items, last⟩ := st
    cases items with
    | none => rfl
    | some its =>
      cases last with
      | none => rfl
      | some t =>
        simp [load_channels, loadFetch]

/-- Witness for C4: concrete fresh non-empty snapshot hit, and a forced reload. -/
theorem c4_amended_witness :
    load_channels ⟨some [mkItem ([], none) (str "http://w")], some 100⟩ false 200 [] =
      ([mkItem ([], none) (str "http://w")],
        ⟨some [mkItem ([], none) (str "http://w")], some 100⟩, false) ∧
    load_channels ⟨some [mkItem ([], none) (str "http://w")], some 100⟩ true 200 [] =
      ([], ⟨some [], some 200⟩, true) := by
  constructor
  · exact c4_amended.1 _ false 200 [] _ 100 rfl (by decide) rfl rfl (by decide)
  · have h := c4_amended.2 ⟨some [mkItem ([], none) (str "http://w")], some 100⟩ 200 []
    simpa using h

/-- Claim C5 (confirmed): a request to start the bulk validation job while one
is running is rejected with a 409 conflict before any task is created
(src/Backend/main/app.py lines 604-605), and the background worker itself
returns immediately under its lock without touching any state when `running`
is already true (lines 543-544), so the in-progress job's state, the validated
map and the channel cache are all left untouched. -/
theorem c5_conflict (job : Job) (m : VMap) (chc : ChCache) (fr : Bool) (now : Nat)
    (fetched : List Line) (probe : Item → Except Line VResult)
    (h : job.running = true) :
    trigger_validate_all job = .error (409, job) ∧
    validate_all_channels job m chc fr now fetched probe = (job, m, chc) := by
  constructor
  · simp [trigger_validate_all, h]
  · simp [validate_all_channels, h]

/-- Witness for C5 at a concrete running job. -/
theorem c5_conflict_witness :
    trigger_validate_all ⟨true, some 1, none, 5, 2, 1, 40⟩ =
      .error (409, ⟨true, some 1, none, 5, 2, 1, 40⟩) ∧
    validate_all_channels ⟨true, some 1, none, 5, 2, 1, 40⟩ [] ⟨none, none⟩ false 2 []
        (fun _ => .ok ⟨false, false, some 2, none⟩) =
      (⟨true, some 1, none, 5, 2, 1, 40⟩, [], ⟨none, none⟩) :=
  c5_conflict ⟨true, some 1, none, 5, 2, 1, 40⟩ [] ⟨none, none⟩ false 2 []
    (fun _ => .ok ⟨false, false, some 2, none⟩) rfl

/-- Claim C9 (confirmed): whenever `validate_channel_entry` actually probes (the
entry has a non-empty URL), the returned result carries `last_checked = now` on
every path — transport failure on both attempts (status 0), error statuses,
1xx/3xx statuses and success alike (src/Backend/main/app.py line 460 runs
before every status-dependent branch; `_head_or_get` absorbs all transport
exceptions internally, lines 386-393). -/
theorem c9_checked_at (u : Line) (head getr : Attempt) (now : Nat) (h : u ≠ []) :
    (validate_channel_entry (some u) head getr now).last_checked = some now := by
  simp only [validate_channel_entry, if_neg h]
  split
  · rfl
  · rfl

/-- Witness for C9: a double transport failure still stamps `last_checked`. -/
theorem c9_checked_at_witness :
    (validate_channel_entry (some (str "http://u")) (.exn (str "dns failure"))
        (.exn (str "dns failure")) 3).last_checked = some 3 :=
  c9_checked_at (str "http://u") (.exn (str "dns failure")) (.exn (str "dns failure")) 3
    (by decide)

/-- Claim C2 counterexample: (1) `working` is NOT "true exactly for 2xx": a final
GET status of 304 (a 3xx the redirect-following client returns as final) yields
`working = true` (src/Backend/main/app.py line 467 uses `200 <= status < 400`);
(2) a transport failure on both attempts yields `check_error = "HTTP status 0"`,
not the error text — `_head_or_get` swallows the exception and returns status 0
(lines 392-393), so the message ("connection refused" here) never reaches the
detail field. -/
theorem c2_counterexample :
    (head_or_get (.exn (str "err")) (.ok 304 [] [])).1 = 304 ∧
    (validate_channel_entry (some (str "http://u")) (.exn (str "err"))
        (.ok 304 [] []) 9).working = true ∧
    ¬ (200 ≤ 304 ∧ 304 ≤ 299) ∧
    (validate_channel_entry (some (str "http://u")) (.exn (str "connection refused"))
        (.exn (str "connection refused")) 9).check_error = some (str "HTTP status 0") ∧
    containsSub (str "connection refused") (str "HTTP status 0") = false := by
  decide

/-- When both attempts raise, `_head_or_get` returns `(0, {}, None)`. -/
lemma head_or_get_double_exn (head getr : Attempt)
    (h1 : isExn head = true) (h2 : isExn getr = true) :
    head_or_get head getr = (0, [], none) := by
  cases head with
  | ok st hd c => simp [isExn] at h1
  | exn a =>
    cases getr with
    | ok st hd c => simp [isExn] at h2
    | exn b => rfl

/-- Claim C2 (corrected): for a probed entry (non-empty URL), `working = true`
holds exactly when the final status satisfies `200 ≤ status < 400` (NOT only
2xx: 3xx final statuses also count as working); a transport failure on both
attempts yields `working = false` with the fixed detail `"HTTP status 0"` (the
error text is not propagated); and a final status `≥ 400` yields
`working = false` with `"HTTP status {status}"` in the detail. -/
theorem c2_amended (u : Line) (head getr : Attempt) (now : Nat) (h : u ≠ []) :
    ((validate_channel_entry (some u) head getr now).working = true ↔
      200 ≤ (head_or_get head getr).1 ∧ (head_or_get head getr).1 < 400) ∧
    (isExn head = true → isExn getr = true →
      (validate_channel_entry (some u) head getr now).working = false ∧
      (validate_channel_entry (some u) head getr now).check_error =
        some (str "HTTP status 0")) ∧
    (400 ≤ (head_or_get head getr).1 →
      (validate_channel_entry (some u) head getr now).working = false ∧
      (validate_channel_entry (some u) head getr now).check_error =
        some (str "HTTP status " ++ (toString (head_or_get head getr).1).data)) := by
  have hunfold : validate_channel_entry (some u) head getr now =
      (if (head_or_get head getr).1 = 0 ∨ 400 ≤ (head_or_get head getr).1 then
        ⟨false, false, some now,
          some (str "HTTP status " ++ (toString (head_or_get head getr).1).data)⟩
      else
        ⟨decide (200 ≤ (head_or_get head getr).1 ∧ (head_or_get head getr).1 < 400),
         (detect_hls_from_headers_and_sample (head_or_get head getr).2.1
            (head_or_get head getr).2.2).1,
         some now,
         match (detect_hls_from_headers_and_sample (head_or_get head getr).2.1
            (head_or_get head getr).2.2).2 with
         | some r => if r = [] then none else some r
         | none => none⟩ : VResult) := by
    simp only [validate_channel_entry, if_neg h]
  rw [hunfold]
  refine ⟨?_, ?_, ?_⟩
  · by_cases hc : (head_or_get head getr).1 = 0 ∨ 400 ≤ (head_or_get head getr).1
    · rw [if_pos hc]
      simp only [show (⟨false, false, some now,
        some (str "HTTP status " ++ (toString (head_or_get head getr).1).data)⟩ :
          VResult).working = false from rfl]
      constructor
      · intro hx; exact absurd hx (by simp)
      · intro hx; omega
    · rw [if_neg hc]
      simp only [decide_eq_true_eq]
  · intro h1 h2
    have hz := head_or_get_double_exn head getr h1 h2
    rw [hz]
    norm_num
    decide
  · intro h4
    have hc : (head_or_get head getr).1 = 0 ∨ 400 ≤ (head_or_get head getr).1 := Or.inr h4
    rw [if_pos hc]
    exact ⟨rfl, rfl⟩

/-- Witness for C2 at a double transport failure: `working = false` matches the
zero final status, and the detail is the literal `"HTTP status 0"`. -/
theorem c2_amended_witness :
    ((validate_channel_entry (some (str "http://w")) (.exn (str "timeout"))
        (.exn (str "timeout")) 4).working = true ↔
      200 ≤ (head_or_get (.exn (str "timeout")) (.exn (str "timeout"))).1 ∧
        (head_or_get (.exn (str "timeout")) (.exn (str "timeout"))).1 < 400) ∧
    (isExn (.exn (str "timeout")) = true → isExn (.exn (str "timeout")) = true →
      (validate_channel_entry (some (str "http://w")) (.exn (str "timeout"))
          (.exn (str "timeout")) 4).working = false ∧
      (validate_channel_entry (some (str "http://w")) (.exn (str "timeout"))
          (.exn (str "timeout")) 4).check_error = some (str "HTTP status 0")) ∧
    (400 ≤ (head_or_get (.exn (str "timeout")) (.exn (str "timeout"))).1 →
      (validate_channel_entry (some (str "http://w")) (.exn (str "timeout"))
          (.exn (str "timeout")) 4).working = false ∧
      (validate_channel_entry (some (str "http://w")) (.exn (str "timeout"))
          (.exn (str "timeout")) 4).check_error =
        some (str "HTTP status " ++
          (toString (head_or_get (.exn (str "timeout")) (.exn (str "timeout"))).1).data)) :=
  c2_amended (str "http://w") (.exn (str "timeout")) (.exn (str "timeout")) 4 (by decide)

/-- If every remaining line is blank or `#`-prefixed, `parse_m3u_index`'s loop
produces nothing, in either mode (in particular a pending metadata line whose
URL search runs to end-of-input yields no record). -/
lemma parse_go_all_comments :
    ∀ (ls : List Line), (∀ x ∈ ls, x = [] ∨ (str "#").isPrefixOf x = true) →
      ∀ p, parse_m3u_index_go p ls = [] := by
  intro ls
  induction ls with
  | nil =>
    intro _ p
    cases p <;> rfl
  | cons x rest ih =>
    intro h p
    have hx := h x (by simp)
    have hr : ∀ y ∈ rest, y = [] ∨ (str "#").isPrefixOf y = true :=
      fun y hy => h y (by simp [hy])
    cases p with
    | none =>
      by_cases he : (str "#EXTINF").isPrefixOf x = true
      · simp only [parse_m3u_index_go, he, if_true]
        exact ih hr _
      · simp only [parse_m3u_index_go, he, if_false]
        exact ih hr _
    | some q =>
      simp only [parse_m3u_index_go, if_pos hx]
      exact ih hr _

/-- While searching for a URL line, the loop of `parse_m3u_index` skips every
blank or `#`-prefixed line (INCLUDING further `#EXTINF` metadata lines) and
pairs the pending metadata with the first other line. -/
lemma parse_go_pairs (p : List (Line × Line) × Option Line) :
    ∀ (mid : List Line) (url : Line) (rest : List Line),
      (∀ x ∈ mid, x = [] ∨ (str "#").isPrefixOf x = true) →
      url ≠ [] → (str "#").isPrefixOf url = false →
      parse_m3u_index_go (some p) (mid ++ url :: rest) =
        mkItem p url :: parse_m3u_index_go none rest := by
  intro mid
  induction mid with
  | nil =>
    intro url rest _ hu1 hu2
    have hcond : ¬ (url = [] ∨ (str "#").isPrefixOf url = true) := by
      simp [hu1, hu2]
    simp only [List.nil_append, parse_m3u_index_go, if_neg hcond]
  | cons x xs ih =>
    intro url rest hmid hu1 hu2
    have hx := hmid x (by simp)
    have hxs : ∀ y ∈ xs, y = [] ∨ (str "#").isPrefixOf y = true :=
      fun y hy => hmid y (by simp [hy])
    simp only [List.cons_append, parse_m3u_index_go, if_pos hx]
    exact ih url rest hxs hu1 hu2

/-- Claim C1 counterexample: a metadata line with no URL line before the next
metadata line DOES get paired with the later block's URL in `parse_m3u_index`
(src/Backend/main/app.py line 327 skips the next `#EXTINF` line as a comment
while searching for a URL).  Block A (`tvg-id="a"`) has no URL; the parser
emits exactly one record pairing A's metadata with block B's URL, and block B's
own record (which the claim says should be unaffected) is lost. -/
theorem c1_counterexample :
    parse_m3u_index
      [str "#EXTINF:-1 tvg-id=\"a\",A", str "#EXTINF:-1 tvg-id=\"b\",B",
       str "http://url-b"] =
    [⟨some (str "a"), some (str "A"), some (str "A"), some (str "a"), none, none, none,
      none, str "http://url-b"⟩] := by
  decide

/-- Claim C1 (corrected): (1) in `parse_m3u_index`, a metadata line yields no
record when NO non-blank non-`#` line follows before end-of-input, and more
generally a run of blank/comment lines yields nothing; (2) however, a pending
metadata line is paired with the first following non-blank non-`#` line even
across intervening blank/comment/metadata lines, so a metadata line with no URL
in its own block steals the next block's URL (the claim's "never paired with a
later block's URL" fails, see the counterexample); (3) in `parse_m3u`
(src/Backend/app.py), the claim's behaviour does hold in the form that each
`#EXTINF:` line completely overwrites the parser state, so a metadata line
directly followed by another metadata line contributes nothing and leaves the
rest of the output unaffected. -/
theorem c1_amended :
    (∀ (ls : List Line), (∀ x ∈ ls, x = [] ∨ (str "#").isPrefixOf x = true) →
       parse_m3u_index_go none ls = []) ∧
    (∀ (ln : Line) (mid : List Line) (url : Line) (rest : List Line),
       (str "#EXTINF").isPrefixOf ln = true →
       (∀ x ∈ mid, x = [] ∨ (str "#").isPrefixOf x = true) →
       url ≠ [] → (str "#").isPrefixOf url = false →
       parse_m3u_index_go none (ln :: (mid ++ url :: rest)) =
         mkItem (extinfParse ln) url :: parse_m3u_index_go none rest) ∧
    (∀ (st : MState) (e1 e2 : Line) (rest : List Line),
       (str "#EXTINF:").isPrefixOf e1 = true →
       (str "#EXTINF:").isPrefixOf e2 = true →
       parse_m3u_go st (e1 :: e2 :: rest) = parse_m3u_go st (e2 :: rest)) := by
  refine ⟨?_, ?_, ?_⟩
  · intro ls h
    exact parse_go_all_comments ls h none
  · intro ln mid url rest he hmid hu1 hu2
    simp only [parse_m3u_index_go, he, if_true]
    exact parse_go_pairs (extinfParse ln) mid url rest hmid hu1 hu2
  · intro st e1 e2 rest h1 h2
    simp only [parse_m3u_go, h1, h2, if_true]

/-- Witness for C1 at concrete inputs: a dangling metadata line at end-of-input
yields nothing; a pending metadata line skips a comment line and pairs with the
next URL line; consecutive `#EXTINF:` lines in `parse_m3u` behave as if the
first were absent. -/
theorem c1_amended_witness :
    parse_m3u_index_go none [str "#EXTINF:-1,X"] = [] ∧
    parse_m3u_index_go none
        [str "#EXTINF:-1,A", str "#junk", str "http://u", str "other"] =
      mkItem (extinfParse (str "#EXTINF:-1,A")) (str "http://u") ::
        parse_m3u_index_go none [str "other"] ∧
    parse_m3u_go m3uInit
        [str "#EXTINF:-1,A", str "#EXTINF:-1,B", str "http://u"] =
      parse_m3u_go m3uInit [str "#EXTINF:-1,B", str "http://u"] := by
  refine ⟨?_, ?_, ?_⟩
  · exact c1_amended.1 [str "#EXTINF:-1,X"] (by decide)
  · exact c1_amended.2.1 (str "#EXTINF:-1,A") [str "#junk"] (str "http://u")
      [str "other"] (by decide) (by decide) (by decide) (by decide)
  · exact c1_amended.2.2 m3uInit (str "#EXTINF:-1,A") (str "#EXTINF:-1,B")
      [str "http://u"] (by decide) (by decide)

/-- Claim C6 counterexample: (1) in `parse_m3u` the trailing free-text name
("Free") wins over the explicit `tvg-name` attribute ("TVG") whenever the line
contains a comma (src/Backend/app.py lines 33-34 check the comma FIRST), while
the claim says `tvg-name` wins; (2) in `parse_m3u_index` there is no
`tvg-id`/"Unknown" fallback at all: with `tvg-id="ID"` present and an empty
free-text name the record's name is `None`, which is outside the claimed
chain (src/Backend/main/app.py line 333 falls back only to the display name). -/
theorem c6_counterexample :
    (parse_m3u [str "#EXTINF:-1 tvg-name=\"TVG\",Free", str "http://u"]).map
        (fun c => c.name) = [str "Free"] ∧
    str "Free" ≠ str "TVG" ∧
    (parse_m3u_index [str "#EXTINF:-1 tvg-id=\"ID\",", str "http://u"]).map
        (fun it => (it.name, it.tvg_id)) = [(none, some (str "ID"))] := by
  decide

/-- Claim C6 (corrected): the actual name precedence chains are — in
`parse_m3u_index`: a non-empty `tvg-name` attribute wins over the trailing
free-text display name, and there is NO further fallback (no `tvg-id`, no
"Unknown": the name is `None` when both are empty/absent); in `parse_m3u`: when
the metadata line contains a comma, the (stripped) text after the FIRST comma
is the name regardless of any attributes, and only on a comma-free line does
`tvg-name` win over `tvg-id` over the literal "Unknown"; moreover the trailing
free-text name in `parse_m3u_index` is taken after the LAST comma when
attributes are present (so `",Name,Extra"` names the record "Extra" there but
"Name,Extra" in `parse_m3u`). -/
theorem c6_amended :
    (∀ (attrs : List (Line × Line)) (dn : Option Line) (url v : Line),
       dictGet (str "tvg-name") attrs = some v → v ≠ [] →
       (mkItem (attrs, dn) url).name = some v) ∧
    (∀ (attrs : List (Line × Line)) (dn : Option Line) (url : Line),
       pyOr (dictGet (str "tvg-name") attrs) none = none →
       (mkItem (attrs, dn) url).name = pyOr dn none) ∧
    (∀ (ln t : Line), afterFirstComma? ln = some t →
       (m3uStep ln).name = some (pyStrip t)) ∧
    (∀ (ln : Line), afterFirstComma? ln = none →
       (m3uStep ln).name =
         pyOr (dictGet (str "tvg-name") (m3uAttrs ln))
           (pyOr (dictGet (str "tvg-id") (m3uAttrs ln)) (some (str "Unknown")))) ∧
    (parse_m3u_index [str "#EXTINF:-1 tvg-id=\"x\",Name,Extra", str "http://q"]).map
        (fun it => it.name) = [some (str "Extra")] ∧
    (parse_m3u [str "#EXTINF:-1 tvg-id=\"x\",Name,Extra", str "http://q"]).map
        (fun c => c.name) = [str "Name,Extra"] := by
  refine ⟨?_, ?_, ?_, ?_, by decide, by decide⟩
  · intro attrs dn url v hv hne
    simp [mkItem, hv, pyOr, hne]
  · intro attrs dn url h
    simp only [mkItem]
    exact pyOr_eq_of_falsy h _
  · intro ln t h
    simp [m3uStep, h]
  · intro ln h
    simp [m3uStep, h]

/-- Witness for C6 at concrete inputs exercising each step of both chains. -/
theorem c6_amended_witness :
    (mkItem ([(str "tvg-name", str "NM")], some (str "DN")) (str "http://q")).name =
      some (str "NM") ∧
    (mkItem ([(str "tvg-id", str "ID")], some (str "DN")) (str "http://q")).name =
      pyOr (some (str "DN")) none ∧
    (m3uStep (str "#EXTINF:-1 tvg-name=\"NM\",Free")).name =
      some (pyStrip (str "Free")) ∧
    (m3uStep (str "#EXTINF:-1 tvg-name=\"NM\"")).name =
      pyOr (dictGet (str "tvg-name") (m3uAttrs (str "#EXTINF:-1 tvg-name=\"NM\"")))
        (pyOr (dictGet (str "tvg-id") (m3uAttrs (str "#EXTINF:-1 tvg-name=\"NM\"")))
          (some (str "Unknown"))) := by
  refine ⟨?_, ?_, ?_, ?_⟩
  · exact c6_amended.1 [(str "tvg-name", str "NM")] (some (str "DN")) (str "http://q")
      (str "NM") (by decide) (by decide)
  · exact c6_amended.2.1 [(str "tvg-id", str "ID")] (some (str "DN")) (str "http://q")
      (by decide)
  · exact c6_amended.2.2.1 (str "#EXTINF:-1 tvg-name=\"NM\",Free") (str "Free")
      (by decide)
  · exact c6_amended.2.2.2.1 (str "#EXTINF:-1 tvg-name=\"NM\"") (by decide)

/-- Crossing a quote-free value: the main scanner in value mode consumes the
value up to the closing quote and emits the pair. -/
lemma attrScan_val_cross (k : Line) :
    ∀ (v acc rest : Line), '"' ∉ v →
      attrScan (.val k acc) (v ++ '"' :: rest) =
        (k, acc.reverse ++ v) :: attrScan (.key []) rest := by
  intro v
  induction v with
  | nil =>
    intro acc rest _
    simp [attrScan]
  | cons c cs ih =>
    intro acc rest hv
    have hc : ¬ (c = '"') := fun hh => hv (by rw [hh]; exact List.mem_cons_self _ _)
    rw [List.cons_append]
    simp only [attrScan, if_neg hc]
    rw [ih (c :: acc) rest (fun hh => hv (List.mem_cons_of_mem _ hh))]
    simp

/-- Crossing a quote-free value: the Backend/app.py scanner, same behaviour. -/
lemma attrScan2_val_cross (k : Line) :
    ∀ (v acc rest : Line), '"' ∉ v →
      attrScan2 (.val k acc) (v ++ '"' :: rest) =
        (k, acc.reverse ++ v) :: attrScan2 (.key []) rest := by
  intro v
  induction v with
  | nil =>
    intro acc rest _
    simp [attrScan2]
  | cons c cs ih =>
    intro acc rest hv
    have hc : ¬ (c = '"') := fun hh => hv (by rw [hh]; exact List.mem_cons_self _ _)
    rw [List.cons_append]
    simp only [attrScan2, if_neg hc]
    rw [ih (c :: acc) rest (fun hh => hv (List.mem_cons_of_mem _ hh))]
    simp

/-- Claim C7 counterexample: in `parse_m3u_index` attribute keys are matched
CASE-SENSITIVELY — `TVG-ID="x" TVG-LOGO="L"` populate neither `tvg_id` nor
`tvg_logo` (src/Backend/main/app.py line 322 stores the key as written and
lines 332-341 look up lowercase spellings only), while the same line with
lowercase keys populates both. -/
theorem c7_counterexample :
    (parse_m3u_index [str "#EXTINF:-1 TVG-ID=\"x\" TVG-LOGO=\"L\",Name",
        str "http://u"]).map (fun it => (it.tvg_id, it.tvg_logo)) = [(none, none)] ∧
    (parse_m3u_index [str "#EXTINF:-1 tvg-id=\"x\" tvg-logo=\"L\",Name",
        str "http://u"]).map (fun it => (it.tvg_id, it.tvg_logo)) =
      [(some (str "x"), some (str "L"))] := by
  decide

/-- Claim C7 (corrected): attribute keys are matched case-insensitively only in
`parse_m3u` (src/Backend/app.py line 31 lowercases every extracted key, so an
uppercase-spelled attribute populates the same field); in `parse_m3u_index` the
extracted key keeps its spelling, so an uppercase-spelled attribute is
extracted but never found by the lowercase lookups and the field stays unset.
For every quote-free value `v`, both scanners extract the pair
`("TVG-LOGO", v)` from `TVG-LOGO="v"`; the lowercased dict of `parse_m3u` then
resolves `tvg-logo` to `v`, while the exact-key dict of `parse_m3u_index`
resolves it to `None`. -/
theorem c7_amended :
    (∀ (v rest : Line), '"' ∉ v →
       attrScan2 (.key []) (str "TVG-LOGO=\"" ++ (v ++ '"' :: rest)) =
         (str "TVG-LOGO", v) :: attrScan2 (.key []) rest) ∧
    (∀ v : Line, dictGet (str "tvg-logo") [(pyLower (str "TVG-LOGO"), v)] = some v) ∧
    (∀ (v rest : Line), '"' ∉ v →
       attrScan (.key []) (str "TVG-LOGO=\"" ++ (v ++ '"' :: rest)) =
         (str "TVG-LOGO", v) :: attrScan (.key []) rest) ∧
    (∀ v : Line, dictGet (str "tvg-logo") [(str "TVG-LOGO", v)] = none) ∧
    (parse_m3u [str "#EXTINF:-1 TVG-LOGO=\"lg\",N", str "http://u"]).map
      (fun c => c.logo) = [some (str "lg")] ∧
    (parse_m3u_index [str "#EXTINF:-1 TVG-LOGO=\"lg\",N", str "http://u"]).map
      (fun it => it.tvg_logo) = [none] := by
  refine ⟨?_, ?_, ?_, ?_, by decide, by decide⟩
  · intro v rest hv
    have h : attrScan2 (.key []) (str "TVG-LOGO=\"" ++ (v ++ '"' :: rest)) =
        attrScan2 (.val (str "TVG-LOGO") []) (v ++ '"' :: rest) := rfl
    rw [h, attrScan2_val_cross (str "TVG-LOGO") v [] rest hv]
    rfl
  · intro v
    rfl
  · intro v rest hv
    have h : attrScan (.key []) (str "TVG-LOGO=\"" ++ (v ++ '"' :: rest)) =
        attrScan (.val (str "TVG-LOGO") []) (v ++ '"' :: rest) := rfl
    rw [h, attrScan_val_cross (str "TVG-LOGO") v [] rest hv]
    rfl
  · intro v
    rfl

/-- Witness for C7 at a concrete quote-free value. -/
theorem c7_amended_witness :
    attrScan2 (.key []) (str "TVG-LOGO=\"" ++ (str "pic.png" ++ '"' :: str ",N")) =
      (str "TVG-LOGO", str "pic.png") :: attrScan2 (.key []) (str ",N") ∧
    dictGet (str "tvg-logo") [(pyLower (str "TVG-LOGO"), str "pic.png")] =
      some (str "pic.png") ∧
    attrScan (.key []) (str "TVG-LOGO=\"" ++ (str "pic.png" ++ '"' :: str ",N")) =
      (str "TVG-LOGO", str "pic.png") :: attrScan (.key []) (str ",N") ∧
    dictGet (str "tvg-logo") [(str "TVG-LOGO", str "pic.png")] = none :=
  ⟨c7_amended.1 (str "pic.png") (str ",N") (by decide),
   c7_amended.2.1 (str "pic.png"),
   c7_amended.2.2.1 (str "pic.png") (str ",N") (by decide),
   c7_amended.2.2.2.1 (str "pic.png")⟩

/-- Claim C8 counterexample: the content-type check has priority over the body
sample (src/Backend/main/app.py line 406 returns before the sample is ever
inspected), so a sample with playlist markers and an unrecognized-only CODECS
list (`"foo"`) is still classified COMPATIBLE whenever the content-type header
names an mpegurl type — contradicting the claim, which quantifies over every
classifier input with such a sample. -/
theorem c8_counterexample :
    (detect_hls_from_headers_and_sample
        [(str "content-type", str "application/vnd.apple.mpegurl")]
        (some (str "#EXT-X-STREAM-INF:BANDWIDTH=1,CODECS=\"foo\"\nhttp://x"))).1 = true ∧
    hasPlaylistMarkers (str "#EXT-X-STREAM-INF:BANDWIDTH=1,CODECS=\"foo\"\nhttp://x") =
      true ∧
    codecsFound (str "#EXT-X-STREAM-INF:BANDWIDTH=1,CODECS=\"foo\"\nhttp://x") =
      [str "foo"] ∧
    (codecsFound (str "#EXT-X-STREAM-INF:BANDWIDTH=1,CODECS=\"foo\"\nhttp://x")).filter
      isOkCodec = [] := by
  decide

/-- Claim C8 (corrected): PROVIDED the content-type header does not already
indicate an mpegurl manifest (step 1 of the classifier does not fire), a
non-empty sample with playlist markers whose extracted codec list is non-empty
and contains no known-safe entry is classified not compatible, with the
comma-joined codec list present (as a suffix) in the reason text. -/
theorem c8_amended (headers : List (Line × Line)) (s : Line)
    (hct : isHlsCt (ctOf headers) = false) (hs : s ≠ [])
    (hm : hasPlaylistMarkers s = true) (hc : codecsFound s ≠ [])
    (hok : (codecsFound s).filter isOkCodec = []) :
    detect_hls_from_headers_and_sample headers (some s) =
      (false, some (str "playlist with unrecognized CODECS " ++ joinComma (codecsFound s))) ∧
    joinComma (codecsFound s) <:+
      str "playlist with unrecognized CODECS " ++ joinComma (codecsFound s) := by
  constructor
  · simp [detect_hls_from_headers_and_sample, hct, hs, hm, classifySample, hc, hok]
  · exact List.suffix_append _ _

/-- Witness for C8: empty headers, a variant-stream line with only the unknown
codec `xyz`. -/
theorem c8_amended_witness :
    detect_hls_from_headers_and_sample []
        (some (str "#EXT-X-STREAM-INF:CODECS=\"xyz\"\nseg")) =
      (false, some (str "playlist with unrecognized CODECS " ++
        joinComma (codecsFound (str "#EXT-X-STREAM-INF:CODECS=\"xyz\"\nseg")))) ∧
    joinComma (codecsFound (str "#EXT-X-STREAM-INF:CODECS=\"xyz\"\nseg")) <:+
      str "playlist with unrecognized CODECS " ++
        joinComma (codecsFound (str "#EXT-X-STREAM-INF:CODECS=\"xyz\"\nseg")) :=
  c8_amended [] (str "#EXT-X-STREAM-INF:CODECS=\"xyz\"\nseg") (by decide) (by decide)
    (by decide) (by decide) (by decide)

/-- A concrete run of the bulk job in which the validated map already holds a
URL (`http://old`) that is not in the current channel set: the current set is
the single channel `http://b`, freshly cached (loaded at 10, run at 20). -/
def c10scenario : Job × VMap × ChCache :=
  validate_all_channels ⟨false, none, none, 0, 0, 0, 0⟩
    [(some (str "http://old"), ⟨true, true, some 0, none⟩)]
    ⟨some [mkItem ([], some (str "B")) (str "http://b")], some 10⟩
    false 20 [] (fun _ => .ok ⟨true, true, some 20, none⟩)

/-- Claim C10 (confirmed): the validated map only ever grows — the bulk job and
the request-scoped page validation only overwrite or append entries, never
remove them (`_load_channels` deliberately keeps `validated_map`, line 371, and
does not touch it at all in this model); each bulk result updates `progress` to
`len(validated_map) / total * 100` over the size of the ENTIRE map
(src/Backend/main/app.py line 593); consequently, in the concrete scenario
where the map already holds a URL outside the current 1-channel set, the final
`progress` is 200 (> 100) and the status endpoint reports
`validated_map_size = 2 > total = 1`. -/
theorem c10_cache_growth_and_progress :
    (∀ (job : Job) (m : VMap) (chc : ChCache) (fr : Bool) (now : Nat)
       (fetched : List Line) (probe : Item → Except Line VResult) (k : Option Line),
       (vmapGet k m).isSome = true →
       (vmapGet k (validate_all_channels job m chc fr now fetched probe).2.1).isSome =
         true) ∧
    (∀ (entries : List (Option Line)) (m : VMap) (now : Nat)
       (probe : Option Line → Except Line VResult) (k : Option Line),
       (vmapGet k m).isSome = true →
       (vmapGet k (validate_channels_for_list entries m now probe)).isSome = true) ∧
    (∀ (now : Nat) (job : Job) (m : VMap) (ent : Option Item)
       (res : Except Line VResult),
       (bulkStep now job m ent res).1.progress =
         ((bulkStep now job m ent res).2.length : ℚ) / (job.total : ℚ) * 100) ∧
    (c10scenario.1.progress > 100 ∧
     (validate_status c10scenario.1 c10scenario.2.1).2.1 = 200 ∧
     (validate_status c10scenario.1 c10scenario.2.1).2.2.1 = 1 ∧
     (validate_status c10scenario.1 c10scenario.2.1).2.2.2 = 2) := by
  refine ⟨?_, ?_, ?_, ?_, ?_, ?_, ?_⟩
  · intro job m chc fr now fetched probe k h
    rw [validate_all_channels]
    split
    · exact h
    · dsimp only
      split
      · exact h
      · exact bulkAttach_mono now _ _ _ _ k h
  · intro entries m now probe k h
    rw [validate_channels_for_list]
    split
    · exact h
    · exact vcflAttach_mono now entries _ m k h
  · intro now job m ent res
    cases res with
    | error msg => rfl
    | ok v =>
      simp only [bulkStep]
      split <;> rfl
  · have hp : c10scenario.1.progress = ((2 : ℚ) / (1 : ℚ)) * 100 := rfl
    rw [hp]; norm_num
  · have hs : (validate_status c10scenario.1 c10scenario.2.1).2.1 =
      ((2 : ℚ) / (1 : ℚ)) * 100 := rfl
    rw [hs]; norm_num
  · rfl
  · rfl

/-- Witness for C10: concrete instances of the growth statements and the
progress formula. -/
theorem c10_witness :
    (vmapGet (some (str "u"))
      (validate_all_channels ⟨false, none, none, 0, 0, 0, 0⟩
        [(some (str "u"), ⟨false, false, none, none⟩)] ⟨some [], none⟩ false 0 []
        (fun _ => .ok ⟨false, false, some 0, none⟩)).2.1).isSome = true ∧
    (vmapGet (some (str "u"))
      (validate_channels_for_list [] [(some (str "u"), ⟨false, false, none, none⟩)] 0
        (fun _ => .ok ⟨false, false, some 0, none⟩))).isSome = true ∧
    (bulkStep 0 ⟨true, some 0, none, 4, 0, 0, 0⟩ [] none
        (.ok ⟨false, false, some 0, none⟩)).1.progress =
      ((bulkStep 0 ⟨true, some 0, none, 4, 0, 0, 0⟩ [] none
        (.ok ⟨false, false, some 0, none⟩)).2.length : ℚ) /
        ((⟨true, some 0, none, 4, 0, 0, 0⟩ : Job).total : ℚ) * 100 :=
  ⟨c10_cache_growth_and_progress.1 ⟨false, none, none, 0, 0, 0, 0⟩
      [(some (str "u"), ⟨false, false, none, none⟩)] ⟨some [], none⟩ false 0 []
      (fun _ => .ok ⟨false, false, some 0, none⟩) (some (str "u")) (by decide),
   c10_cache_growth_and_progress.2.1 [] [(some (str "u"), ⟨false, false, none, none⟩)] 0
      (fun _ => .ok ⟨false, false, some 0, none⟩) (some (str "u")) (by decide),
   c10_cache_growth_and_progress.2.2.1 0 ⟨true, some 0, none, 4, 0, 0, 0⟩ [] none
      (.ok ⟨false, false, some 0, none⟩)⟩
